import Mathlib

/-
Shallow embedding of the fit_xone REST client layer
(src/client_base.py together with the configuration model of src/config.py).

Python exceptions are modelled by the inductive PyExc; raising is modelled by
an Except result.  HTTP responses are modelled by the Response structure; the
parse outcome of the body (resp.json in the source) is carried as a field,
since the embedding does not model raw byte bodies.  The datamodel MISSING
sentinel is modelled by Option.none.  The external sgconnect token manager is
modelled by the TokenMgr inductive recording the arguments of the call that
created it, with token retrieval supplied as a function parameter.  The
backend (the HTTP transport) is modelled as a function from the attempt
number to the outcome of that attempt.
-/

namespace XOne

/-- A parsed JSON value, standing in for the result of resp.json(). -/
inductive Json where
  | null
  | bool (b : Bool)
  | num (n : Int)
  | str (s : String)
  | arr (xs : List Json)
  | obj (fields : List (String × Json))

/-- The Python exception classes that appear in client_base.py, each carrying
the message its str() renders.  The class hierarchy of the source is:
Unauthorized, NotFound < HttpClientError < requests.HTTPError;
HttpServerError < requests.HTTPError; ClientError < RuntimeError;
jsonDecodeError models requests.exceptions.JSONDecodeError (not an HTTPError);
attributeError models AttributeError; other models any further exception
(connection errors, timeouts, ...). -/
inductive PyExc where
  | httpError (msg : String)
  | httpClientError (msg : String)
  | httpServerError (msg : String)
  | unauthorized (msg : String)
  | notFound (msg : String)
  | clientError (msg : String)
  | jsonDecodeError (msg : String)
  | attributeError (msg : String)
  | other (msg : String)
deriving DecidableEq

/-- str(exc) for the exceptions above (each is constructed in the source with
a single message argument). -/
def PyExc.str : PyExc → String
  | .httpError m => m
  | .httpClientError m => m
  | .httpServerError m => m
  | .unauthorized m => m
  | .notFound m => m
  | .clientError m => m
  | .jsonDecodeError m => m
  | .attributeError m => m
  | .other m => m

/-- Membership in the requests.HTTPError hierarchy. -/
def PyExc.isHTTPError : PyExc → Bool
  | .httpError _ => true
  | .httpClientError _ => true
  | .httpServerError _ => true
  | .unauthorized _ => true
  | .notFound _ => true
  | _ => false

def PyExc.isClientError : PyExc → Bool
  | .clientError _ => true
  | _ => false

def PyExc.isJsonDecodeError : PyExc → Bool
  | .jsonDecodeError _ => true
  | _ => false

/-- An HTTP response as seen by check_response: status code, body text,
reason phrase and url (used by requests when rendering a status-line error),
and the outcome of parsing the body as JSON (ok value, or the decode-error
message raised by resp.json()). -/
structure Response where
  status_code : Nat
  text : String
  reason : String
  url : String
  jsonBody : Except String Json

/-- The message of the HTTPError that requests' Response.raise_for_status
raises, or none when it does not raise: it raises exactly for status codes
in [400,600). -/
def Response.raise_for_status (r : Response) : Option String :=
  if 400 ≤ r.status_code ∧ r.status_code < 500 then
    some (toString r.status_code ++ " Client Error: " ++ r.reason ++
      " for url: " ++ r.url)
  else if 500 ≤ r.status_code ∧ r.status_code < 600 then
    some (toString r.status_code ++ " Server Error: " ++ r.reason ++
      " for url: " ++ r.url)
  else none

/-- requests' Response.ok: true iff raise_for_status does not raise. -/
def Response.ok (r : Response) : Bool :=
  (r.raise_for_status).isNone

/-- is_ok from client_base.py line 19: 299 >= status >= 200. -/
def is_ok (status : Nat) : Bool :=
  decide (200 ≤ status ∧ status ≤ 299)

/-- The message computed inside check_response: "status: text", replaced by
the message of raise_for_status when the body text is empty (and
raise_for_status actually raises). -/
def check_message (r : Response) : String :=
  let message := toString r.status_code ++ ": " ++ r.text
  if r.text = "" then
    match r.raise_for_status with
    | some m => m
    | none => message
  else message

/-- check_response from client_base.py lines 43-58: return the response when
resp.ok, otherwise raise Unauthorized on 403, NotFound on 404, and ClientError
on any other not-ok status. -/
def check_response (r : Response) : Except PyExc Response :=
  if r.ok then .ok r
  else if r.status_code = 403 then .error (.unauthorized (check_message r))
  else if r.status_code = 404 then .error (.notFound (check_message r))
  else .error (.clientError (check_message r))

/-- The external sgconnect token manager, recorded by the arguments of the
call that created it (client-credentials mode or implicit mode, the two call
sites in Client.headers). -/
inductive TokenMgr where
  | clientMode (client_id client_secret server scope : String)
  | implicitMode (implicit_client_id implicit_redirect_uri server scope : String)
deriving DecidableEq

/-- ApiConfig from config.py: per-API credential record.  Fields declared
optional() without a default hold the MISSING sentinel when absent, modelled
as none; client_id and client_secret default to the empty string. -/
structure ApiConfig where
  comment : Option String
  origin : Option String
  scope : String
  client_id : String
  client_secret : String
  token_mgr : Option TokenMgr
deriving DecidableEq

/-- XOneEnv from config.py: environment descriptor.  sgconnect_env is
optional (MISSING modelled as none; its declared default is the string
"dev"). -/
structure XOneEnv where
  trade_information : ApiConfig
  csa_information : ApiConfig
  pricing_model : ApiConfig
  endpoint : String
  xone_env : String
  version : String
  sgconnect_env : Option String
  implicit_client_id : String
  implicit_redirect_uri : String
deriving DecidableEq

/-- A value held by an attribute of an XOneEnv instance. -/
inductive EnvValue where
  | str (s : String)
  | optStr (s : Option String)
  | api (a : ApiConfig)

/-- Python attribute lookup on an XOneEnv instance: the attributes are
exactly the fields declared in config.py lines 34-47; any other name fails
(none, i.e. AttributeError). -/
def XOneEnv.getattr (env : XOneEnv) (name : String) : Option EnvValue :=
  if name = "trade_information" then some (.api env.trade_information)
  else if name = "csa_information" then some (.api env.csa_information)
  else if name = "pricing_model" then some (.api env.pricing_model)
  else if name = "endpoint" then some (.str env.endpoint)
  else if name = "xone_env" then some (.str env.xone_env)
  else if name = "version" then some (.str env.version)
  else if name = "sgconnect_env" then some (.optStr env.sgconnect_env)
  else if name = "implicit_client_id" then some (.str env.implicit_client_id)
  else if name = "implicit_redirect_uri" then some (.str env.implicit_redirect_uri)
  else none

/-- Client.headers from client_base.py lines 111-147.  getTokenValue models
the external token manager's get_token_value method.  Returns the header list
(in insertion order) together with the credential record after the call
(self._api is mutated in place in the source; here the new record is
returned). -/
def Client.headers (getTokenValue : TokenMgr → String) (env : XOneEnv)
    (api : ApiConfig) (is_mime : Bool) : List (String × String) × ApiConfig :=
  let base : List (String × String) :=
    if ¬ is_mime then
      [("Content-Type", "application/json"), ("Accept", "application/json")]
    else []
  match env.sgconnect_env with
  | some server =>
    let mgr : TokenMgr :=
      match api.token_mgr with
      | some m => m
      | none =>
        if 0 < api.client_id.length ∧ 0 < api.client_secret.length then
          .clientMode api.client_id api.client_secret server api.scope
        else
          .implicitMode env.implicit_client_id env.implicit_redirect_uri
            server api.scope
    let api' : ApiConfig :=
      match api.token_mgr with
      | some _ => api
      | none => { api with token_mgr := some mgr }
    let withAuth := base ++ [("Authorization", "Bearer " ++ getTokenValue mgr)]
    match api.origin with
    | some o => (withAuth ++ [("Origin", o)], api')
    | none => (withAuth, api')
  | none =>
    match api.origin with
    | some o => (base ++ [("Origin", o)], api)
    | none => (base, api)

/-- The credential record after a sequence of Client.headers calls with the
given is_mime flags. -/
def headersCalls (getTokenValue : TokenMgr → String) (env : XOneEnv)
    (api : ApiConfig) (flags : List Bool) : ApiConfig :=
  flags.foldl (fun a mime => (Client.headers getTokenValue env a mime).2) api

/-- The global retry/timeout defaults of RootConfig (config.py lines 58-64):
max_retries (default 0) and timeout (default 60), both Python ints. -/
structure Config where
  max_retries : Int
  timeout : Int
deriving DecidableEq

/-- What the HTTP transport does on one attempt: the call
self._requests_session.request (headers included) raises an exception, or it
returns a response.  The backend of a run is a function from the attempt
number (0-based) to this outcome. -/
inductive AttemptOutcome where
  | raised (e : PyExc)
  | response (r : Response)

/-- What the embedding records about one iteration of the retry loop: the
timeout passed to the HTTP call and the is_mime flag passed to
Client.headers. -/
structure AttemptRecord where
  timeout : Int
  is_mime : Bool
deriving DecidableEq

/-- The value a successful request returns: the parsed JSON body, or the raw
response handle when stream is set. -/
inductive ReqValue where
  | jsonVal (j : Json)
  | streamResp (r : Response)

/-- The observable trace of one call to Client.request: its outcome, the
attempts made (in order), and the time.sleep durations in seconds (in
order). -/
structure Trace where
  result : Except PyExc ReqValue
  attempts : List AttemptRecord
  sleeps : List ℚ

/-- The message of the final ClientError when a last exception was
recorded: f-string of client_base.py line 176. -/
def failMsg (method url : String) (e : PyExc) : String :=
  "Client request failed for " ++ method.toUpper ++ " " ++ url ++ ": " ++ e.str

/-- The message of the final ClientError when no exception was ever
recorded: f-string of client_base.py line 178. -/
def noFailMsg (method url : String) : String :=
  "Client request failed for " ++ method.toUpper ++ " " ++ url ++
    " without any exception"

/-- The exception one attempt produces, if any: the transport raised, or
check_response rejected the response.  none means the attempt succeeded
(response with resp.ok). -/
def attemptError : AttemptOutcome → Option PyExc
  | .raised e => some e
  | .response r =>
    match check_response r with
    | .error e => some e
    | .ok _ => none

/-- The while-loop of Client.request (client_base.py lines 157-178), as a
recursion on the number of loop iterations still allowed by the condition
count <= config.max_retries; at loop state count that number is
(max_retries + 1 - count).toNat, so fuel 0 is exactly the loop condition
turning false.  State carried between iterations: count, timeout, the
is_mime entry still present in the params bag (popped by the first
iteration), and the last recorded exception.  Per failing iteration the
source increments count, sleeps 0.5 * count seconds, and adds count * 5 to
the timeout; a succeeding iteration returns resp.json() (which may itself
raise, uncaught, for an unparseable body) or the raw response when stream
is set. -/
def requestLoop (backend : Nat → AttemptOutcome) (stream : Bool)
    (method url : String) :
    Nat → Nat → Int → Option Bool → Option PyExc → Trace
  | 0, _count, _timeout, _mime, error =>
    { result := .error (.clientError (match error with
        | some e => failMsg method url e
        | none => noFailMsg method url)),
      attempts := [], sleeps := [] }
  | fuel + 1, count, timeout, mimeParam, _error =>
    let is_mime := mimeParam.getD false
    let att : AttemptRecord := ⟨timeout, is_mime⟩
    match backend count with
    | .raised e =>
      let t := requestLoop backend stream method url fuel (count + 1)
        (timeout + ((count : Int) + 1) * 5) none (some e)
      { result := t.result, attempts := att :: t.attempts,
        sleeps := (((count : ℚ) + 1) / 2) :: t.sleeps }
    | .response r =>
      match check_response r with
      | .error e =>
        let t := requestLoop backend stream method url fuel (count + 1)
          (timeout + ((count : Int) + 1) * 5) none (some e)
        { result := t.result, attempts := att :: t.attempts,
          sleeps := (((count : ℚ) + 1) / 2) :: t.sleeps }
      | .ok r' =>
        if stream then
          { result := .ok (.streamResp r'), attempts := [att], sleeps := [] }
        else
          match r'.jsonBody with
          | .ok j =>
            { result := .ok (.jsonVal j), attempts := [att], sleeps := [] }
          | .error m =>
            { result := .error (.jsonDecodeError m), attempts := [att],
              sleeps := [] }

/-- Client.request (client_base.py lines 155-178) given the already-built
url: count starts at 0, error at None, timeout at config.timeout, and the
loop runs while count <= config.max_retries.  isMimeParam is the is_mime
entry of the params bag, if present. -/
def Client.request (cfg : Config) (backend : Nat → AttemptOutcome)
    (method url : String) (stream : Bool) (isMimeParam : Option Bool) : Trace :=
  requestLoop backend stream method url (cfg.max_retries + 1).toNat 0
    cfg.timeout isMimeParam none

/-- Client.url of the base class (client_base.py lines 150-151): it reads
self._env.end_point and self._env.tessa_env by attribute lookup; join models
url_join applied to the endpoint and the remaining segments
(tessa_env, api_name, "rest", *last). -/
def Client.url (join : String → List String → String) (env : XOneEnv)
    (api_name : String) (last : List String) : Except PyExc String :=
  match env.getattr "end_point" with
  | none => .error (.attributeError "end_point")
  | some v1 =>
    match env.getattr "tessa_env" with
    | none => .error (.attributeError "tessa_env")
    | some v2 =>
      match v1, v2 with
      | .str ep, .str te => .ok (join ep ([te, api_name, "rest"] ++ last))
      | _, _ => .error (.other "unexpected attribute type")

/-- A call of request on an instance of the base Client class: the url is
built first (line 156), so an exception there escapes before any attempt. -/
def Client.requestBase (cfg : Config) (backend : Nat → AttemptOutcome)
    (join : String → List String → String) (env : XOneEnv)
    (api_name : String) (last : List String) (method : String) (stream : Bool)
    (isMimeParam : Option Bool) : Trace :=
  match Client.url join env api_name last with
  | .error e => { result := .error e, attempts := [], sleeps := [] }
  | .ok u => Client.request cfg backend method u stream isMimeParam

/-- The timeout the loop passes to the HTTP call i attempts after reaching
state (timeout, count): each failing iteration at state count adds
(count + 1) * 5. -/
def timeoutAt (t0 : Int) (count : Nat) : Nat → Int
  | 0 => t0
  | i + 1 => timeoutAt (t0 + ((count : Int) + 1) * 5) (count + 1) i

/-- The i-th triangular number 0 + 1 + ... + i. -/
def tri : Nat → Nat
  | 0 => 0
  | i + 1 => tri i + (i + 1)

/-- The last exception the loop has recorded when it exits after fuel more
iterations from attempt number count, starting from the recorded err:
with at least one iteration it is the error of the last attempt. -/
def lastErrOpt (backend : Nat → AttemptOutcome) (count : Nat) :
    Nat → Option PyExc → Option PyExc
  | 0, err => err
  | f + 1, _ => attemptError (backend (count + f))

/-! ### Lemmas about the retry loop -/

lemma requestLoop_fail_step (backend : Nat → AttemptOutcome) (stream : Bool)
    (method url : String) (fuel count : Nat) (timeout : Int)
    (mime : Option Bool) (err : Option PyExc) (e : PyExc)
    (h : attemptError (backend count) = some e) :
    requestLoop backend stream method url (fuel + 1) count timeout mime err =
      { result := (requestLoop backend stream method url fuel (count + 1)
          (timeout + ((count : Int) + 1) * 5) none (some e)).result,
        attempts := ⟨timeout, mime.getD false⟩ ::
          (requestLoop backend stream method url fuel (count + 1)
            (timeout + ((count : Int) + 1) * 5) none (some e)).attempts,
        sleeps := (((count : ℚ) + 1) / 2) ::
          (requestLoop backend stream method url fuel (count + 1)
            (timeout + ((count : Int) + 1) * 5) none (some e)).sleeps } := by
  cases hbc : backend count with
  | raised e' =>
    have he : e' = e := by simpa [attemptError, hbc] using h
    subst he
    simp [requestLoop, hbc]
  | response r =>
    cases hcr : check_response r with
    | error e' =>
      have he : e' = e := by simpa [attemptError, hbc, hcr] using h
      subst he
      simp [requestLoop, hbc, hcr]
    | ok r' =>
      exfalso
      simp [attemptError, hbc, hcr] at h

lemma requestLoop_success_step (backend : Nat → AttemptOutcome) (stream : Bool)
    (method url : String) (fuel count : Nat) (timeout : Int)
    (mime : Option Bool) (err : Option PyExc) (r r' : Response)
    (hbc : backend count = .response r) (hcr : check_response r = .ok r') :
    requestLoop backend stream method url (fuel + 1) count timeout mime err =
      { result := if stream then .ok (.streamResp r')
          else match r'.jsonBody with
            | .ok j => .ok (.jsonVal j)
            | .error m => .error (.jsonDecodeError m),
        attempts := [⟨timeout, mime.getD false⟩], sleeps := [] } := by
  cases hst : stream with
  | true => simp [requestLoop, hbc, hcr, hst]
  | false =>
    cases hjb : r'.jsonBody with
    | ok j => simp [requestLoop, hbc, hcr, hst, hjb]
    | error m => simp [requestLoop, hbc, hcr, hst, hjb]

/-- The attempt records an all-failing run produces, starting from loop state
(timeout, count) with the given is_mime entry still in the params bag. -/
def expectedAttempts (timeout : Int) (count : Nat) (mime : Option Bool) :
    Nat → List AttemptRecord
  | 0 => []
  | f + 1 => ⟨timeout, mime.getD false⟩ ::
      expectedAttempts (timeout + ((count : Int) + 1) * 5) (count + 1) none f

/-- The sleep durations an all-failing run produces from loop state count. -/
def expectedSleeps (count : Nat) : Nat → List ℚ
  | 0 => []
  | f + 1 => (((count : ℚ) + 1) / 2) :: expectedSleeps (count + 1) f

lemma expectedAttempts_length (fuel : Nat) :
    ∀ (timeout : Int) (count : Nat) (mime : Option Bool),
    (expectedAttempts timeout count mime fuel).length = fuel := by
  induction fuel with
  | zero => intro timeout count mime; simp [expectedAttempts]
  | succ f ih =>
    intro timeout count mime
    simp [expectedAttempts, ih]

lemma expectedSleeps_length (fuel : Nat) :
    ∀ count : Nat, (expectedSleeps count fuel).length = fuel := by
  induction fuel with
  | zero => intro count; simp [expectedSleeps]
  | succ f ih =>
    intro count
    simp [expectedSleeps, ih]

lemma expectedAttempts_get (fuel : Nat) :
    ∀ (i : Nat) (timeout : Int) (count : Nat) (mime : Option Bool),
    i < fuel →
    (expectedAttempts timeout count mime fuel).get? i =
      some ⟨timeoutAt timeout count i,
        if i = 0 then mime.getD false else false⟩ := by
  induction fuel with
  | zero => intro i _ _ _ hi; omega
  | succ f ih =>
    intro i timeout count mime hi
    cases i with
    | zero => simp [expectedAttempts, timeoutAt]
    | succ j =>
      have hj : j < f := by omega
      have := ih j (timeout + ((count : Int) + 1) * 5) (count + 1) none hj
      simp only [expectedAttempts, List.get?_cons_succ, this, timeoutAt]
      simp

lemma expectedSleeps_get (fuel : Nat) :
    ∀ (i : Nat) (count : Nat), i < fuel →
    (expectedSleeps count fuel).get? i =
      some (((count : ℚ) + (i : ℚ) + 1) / 2) := by
  induction fuel with
  | zero => intro i _ hi; omega
  | succ f ih =>
    intro i count hi
    cases i with
    | zero => simp [expectedSleeps]
    | succ j =>
      have hj : j < f := by omega
      have := ih j (count + 1) hj
      simp only [expectedSleeps, List.get?_cons_succ, this]
      congr 1
      push_cast
      ring

lemma requestLoop_allFail (backend : Nat → AttemptOutcome) (stream : Bool)
    (method url : String) (fuel : Nat) :
    ∀ (count : Nat) (timeout : Int) (mime : Option Bool) (err : Option PyExc),
    (∀ k, count ≤ k → k < count + fuel →
      (attemptError (backend k)).isSome = true) →
    (requestLoop backend stream method url fuel count timeout mime err).attempts =
      expectedAttempts timeout count mime fuel ∧
    (requestLoop backend stream method url fuel count timeout mime err).sleeps =
      expectedSleeps count fuel ∧
    (requestLoop backend stream method url fuel count timeout mime err).result =
      .error (.clientError (match lastErrOpt backend count fuel err with
        | some e => failMsg method url e
        | none => noFailMsg method url)) := by
  induction fuel with
  | zero =>
    intro count timeout mime err _h
    refine ⟨by simp [requestLoop, expectedAttempts],
      by simp [requestLoop, expectedSleeps], ?_⟩
    simp [requestLoop, lastErrOpt]
  | succ f ih =>
    intro count timeout mime err h
    obtain ⟨e, he⟩ := Option.isSome_iff_exists.mp (h count le_rfl (by omega))
    rw [requestLoop_fail_step backend stream method url f count timeout mime err e he]
    obtain ⟨ha, hs, hr⟩ := ih (count + 1) (timeout + ((count : Int) + 1) * 5)
      none (some e) (fun k hk1 hk2 => h k (by omega) (by omega))
    refine ⟨by rw [ha]; rfl, by rw [hs]; rfl, ?_⟩
    rw [hr]
    cases f with
    | zero => simp [lastErrOpt, he]
    | succ g =>
      have hg : count + 1 + g = count + (g + 1) := by omega
      simp only [lastErrOpt, hg]

/-- C1: with a configured non-negative max_retries N and a backend for which
every attempt fails (the HTTP call raises or check_response rejects the
response), Client.request performs exactly N + 1 attempts and then raises a
single ClientError whose message embeds the upper-cased HTTP method, the
request url, and the message of the last recorded exception. -/
theorem request_allFail_attempts_and_error (cfg : Config)
    (backend : Nat → AttemptOutcome) (method url : String) (stream : Bool)
    (mimeArg : Option Bool) (N : Nat) (e : PyExc)
    (hN : cfg.max_retries = (N : Int))
    (hfail : ∀ k, k ≤ N → (attemptError (backend k)).isSome = true)
    (hlast : attemptError (backend N) = some e) :
    (Client.request cfg backend method url stream mimeArg).attempts.length =
      N + 1 ∧
    (Client.request cfg backend method url stream mimeArg).result =
      .error (.clientError ("Client request failed for " ++ method.toUpper ++
        " " ++ url ++ ": " ++ e.str)) := by
  have hfuel : (cfg.max_retries + 1).toNat = N + 1 := by rw [hN]; omega
  obtain ⟨ha, _hs, hr⟩ := requestLoop_allFail backend stream method url (N + 1)
    0 cfg.timeout mimeArg none (fun k _hk1 hk2 => hfail k (by omega))
  unfold Client.request
  rw [hfuel]
  refine ⟨by rw [ha, expectedAttempts_length], ?_⟩
  rw [hr]
  have hl : lastErrOpt backend 0 (N + 1) none = some e := by
    simpa [lastErrOpt] using hlast
  rw [hl]
  rfl

/-- A backend whose every attempt raises a connection-style error. -/
def alwaysFailBackend : Nat → AttemptOutcome := fun _ => .raised (.other "boom")

/-- Witness for C1 at max_retries 2. -/
theorem request_allFail_attempts_and_error_witness :
    (Client.request ⟨2, 60⟩ alwaysFailBackend "get" "http://u" false
      none).attempts.length = 2 + 1 ∧
    (Client.request ⟨2, 60⟩ alwaysFailBackend "get" "http://u" false
      none).result =
      .error (.clientError ("Client request failed for " ++ "get".toUpper ++
        " " ++ "http://u" ++ ": " ++ (PyExc.other "boom").str)) :=
  request_allFail_attempts_and_error ⟨2, 60⟩ alwaysFailBackend "get"
    "http://u" false none 2 (.other "boom") rfl (fun _ _ => rfl) rfl

lemma timeoutAt_closed (i : Nat) :
    ∀ (t : Int) (c : Nat),
    timeoutAt t c i = t + 5 * ((i * c + tri i : Nat) : Int) := by
  induction i with
  | zero => intro t c; simp [timeoutAt, tri]
  | succ j ih =>
    intro t c
    rw [timeoutAt, ih]
    push_cast [tri]
    ring

lemma two_mul_tri (n : Nat) : 2 * tri n = n * (n + 1) := by
  induction n with
  | zero => simp [tri]
  | succ m ih =>
    calc 2 * tri (m + 1) = 2 * tri m + 2 * (m + 1) := by rw [tri]; ring
    _ = m * (m + 1) + 2 * (m + 1) := by rw [ih]
    _ = (m + 1) * (m + 1 + 1) := by ring

/-- C3 counterexample: with max_retries 2, initial timeout 60 and an
always-failing backend, the timeouts passed to the three HTTP calls are
60, 65 and 75, while the claimed closed form initialTimeout + 5*(k-1)
predicts 70 on attempt 3. -/
theorem request_timeout_counterexample :
    (Client.request ⟨2, 60⟩ alwaysFailBackend "get" "http://u" false
      none).attempts.map AttemptRecord.timeout = [60, 65, 75] ∧
    ¬ ((75 : Int) = 60 + 5 * (3 - 1)) := by
  refine ⟨rfl, by decide⟩

/-- C3 amended: on a run whose attempts keep failing, the timeout passed to
the HTTP call on attempt k (1-indexed) equals the configured initial timeout
on the first attempt and initialTimeout + 5 * (k*(k-1)/2) in general: each
failed attempt number j adds 5*j to the timeout, so the increments
accumulate, instead of the claimed closed form initialTimeout + 5*(k-1)
(the two agree only for k ≤ 2). -/
theorem request_timeout_schedule (cfg : Config)
    (backend : Nat → AttemptOutcome) (method url : String) (stream : Bool)
    (mimeArg : Option Bool) (N : Nat)
    (hN : cfg.max_retries = (N : Int))
    (hfail : ∀ k, k ≤ N → (attemptError (backend k)).isSome = true) :
    ∀ k, 1 ≤ k → k ≤ N + 1 →
    ((Client.request cfg backend method url stream mimeArg).attempts.get?
        (k - 1)).map AttemptRecord.timeout =
      some (cfg.timeout + 5 * ((k * (k - 1) / 2 : Nat) : Int)) := by
  intro k hk1 hk2
  have hfuel : (cfg.max_retries + 1).toNat = N + 1 := by rw [hN]; omega
  obtain ⟨ha, _hs, _hr⟩ := requestLoop_allFail backend stream method url
    (N + 1) 0 cfg.timeout mimeArg none (fun k _hk1 hk2 => hfail k (by omega))
  unfold Client.request
  rw [hfuel, ha]
  rw [expectedAttempts_get (N + 1) (k - 1) cfg.timeout 0 mimeArg (by omega)]
  simp only [Option.map_some']
  congr 1
  rw [timeoutAt_closed]
  have hk' : k - 1 + 1 = k := by omega
  have hmul : k * (k - 1) = 2 * tri (k - 1) := by
    rw [two_mul_tri (k - 1), hk', Nat.mul_comm]
  have hdiv : k * (k - 1) / 2 = tri (k - 1) := by rw [hmul]; omega
  rw [hdiv]
  simp

/-- Witness for the amended C3 at max_retries 2, attempt 3. -/
theorem request_timeout_schedule_witness :
    ((Client.request ⟨2, 60⟩ alwaysFailBackend "get" "http://u" false
        none).attempts.get? (3 - 1)).map AttemptRecord.timeout =
      some ((⟨2, 60⟩ : Config).timeout + 5 * ((3 * (3 - 1) / 2 : Nat) : Int)) :=
  request_timeout_schedule ⟨2, 60⟩ alwaysFailBackend "get" "http://u" false
    none 2 rfl (fun _ _ => rfl) 3 (by norm_num) (by norm_num)

/-- C4 counterexample: with max_retries 0 and an always-failing backend the
code performs one sleep of 0.5 seconds (the sleep happens inside the except
handler, after the final failed attempt too), while the claim predicts
exactly zero sleeps. -/
theorem request_sleep_counterexample :
    (Client.request ⟨0, 60⟩ alwaysFailBackend "get" "http://u" false
      none).sleeps = [(1 : ℚ) / 2] ∧
    ¬ ((1 : Nat) = 0) := by
  constructor
  · norm_num [Client.request, requestLoop, alwaysFailBackend]
  · decide

/-- C4 amended: with configured max_retries N and a backend whose every
attempt fails, Client.request performs exactly N + 1 sleeps, one after every
failed attempt including the last one, and the sleep after failed attempt
number k lasts 0.5 * k seconds (k = 1 .. N+1). -/
theorem request_sleep_schedule (cfg : Config)
    (backend : Nat → AttemptOutcome) (method url : String) (stream : Bool)
    (mimeArg : Option Bool) (N : Nat)
    (hN : cfg.max_retries = (N : Int))
    (hfail : ∀ k, k ≤ N → (attemptError (backend k)).isSome = true) :
    (Client.request cfg backend method url stream mimeArg).sleeps.length =
      N + 1 ∧
    ∀ k, 1 ≤ k → k ≤ N + 1 →
    (Client.request cfg backend method url stream mimeArg).sleeps.get?
        (k - 1) = some ((k : ℚ) / 2) := by
  have hfuel : (cfg.max_retries + 1).toNat = N + 1 := by rw [hN]; omega
  obtain ⟨_ha, hs, _hr⟩ := requestLoop_allFail backend stream method url
    (N + 1) 0 cfg.timeout mimeArg none (fun k _hk1 hk2 => hfail k (by omega))
  unfold Client.request
  rw [hfuel, hs]
  refine ⟨by rw [expectedSleeps_length], ?_⟩
  intro k hk1 hk2
  rw [expectedSleeps_get (N + 1) (k - 1) 0 (by omega)]
  congr 1
  rw [Nat.cast_sub hk1]
  push_cast
  ring

/-- Witness for the amended C4 at max_retries 1. -/
theorem request_sleep_schedule_witness :
    (Client.request ⟨1, 60⟩ alwaysFailBackend "get" "http://u" false
      none).sleeps.length = 1 + 1 ∧
    (Client.request ⟨1, 60⟩ alwaysFailBackend "get" "http://u" false
      none).sleeps.get? (2 - 1) = some ((2 : ℚ) / 2) := by
  have h := request_sleep_schedule ⟨1, 60⟩ alwaysFailBackend "get" "http://u"
    false none 1 rfl (fun _ _ => rfl)
  exact ⟨h.1, h.2 2 (by norm_num) (by norm_num)⟩

lemma ok_eq_decide (r : Response) :
    r.ok = decide (r.status_code < 400 ∨ 600 ≤ r.status_code) := by
  simp only [Response.ok, Response.raise_for_status]
  by_cases h1 : 400 ≤ r.status_code ∧ r.status_code < 500
  · rw [if_pos h1]
    simp only [Option.isNone_some]
    symm
    rw [decide_eq_false_iff_not]
    omega
  · rw [if_neg h1]
    by_cases h2 : 500 ≤ r.status_code ∧ r.status_code < 600
    · rw [if_pos h2]
      simp only [Option.isNone_some]
      symm
      rw [decide_eq_false_iff_not]
      omega
    · rw [if_neg h2]
      simp only [Option.isNone_none]
      symm
      rw [decide_eq_true_eq]
      omega

lemma check_response_of_is_ok (r : Response) (h : is_ok r.status_code = true) :
    check_response r = .ok r := by
  have hok : r.ok = true := by
    rw [ok_eq_decide, decide_eq_true_eq]
    simp only [is_ok, decide_eq_true_eq] at h
    omega
  simp [check_response, hok]

/-- C5: when the first attempt yields a response whose status is in
[200,299], Client.request performs exactly one attempt with no sleep and
returns the raw response handle when stream is set, or the parsed JSON body
when the body parses. -/
theorem request_success_single_attempt (cfg : Config)
    (backend : Nat → AttemptOutcome) (method url : String) (stream : Bool)
    (mimeArg : Option Bool) (N : Nat) (r : Response)
    (hN : cfg.max_retries = (N : Int))
    (h0 : backend 0 = .response r)
    (hok : is_ok r.status_code = true) :
    (Client.request cfg backend method url stream mimeArg).attempts.length =
      1 ∧
    (Client.request cfg backend method url stream mimeArg).sleeps = [] ∧
    (stream = true →
      (Client.request cfg backend method url stream mimeArg).result =
        .ok (.streamResp r)) ∧
    (stream = false → ∀ j, r.jsonBody = .ok j →
      (Client.request cfg backend method url stream mimeArg).result =
        .ok (.jsonVal j)) := by
  have hfuel : (cfg.max_retries + 1).toNat = N + 1 := by rw [hN]; omega
  have hcr : check_response r = .ok r := check_response_of_is_ok r hok
  unfold Client.request
  rw [hfuel]
  rw [requestLoop_success_step backend stream method url N 0 cfg.timeout
    mimeArg none r r h0 hcr]
  refine ⟨rfl, rfl, ?_, ?_⟩
  · intro hst; simp [hst]
  · intro hst j hj; simp [hst, hj]

/-- A backend whose every attempt returns a 200 response with a parsed
body. -/
def okBackend : Nat → AttemptOutcome :=
  fun _ => .response ⟨200, "ok", "OK", "http://u", .ok (.str "v")⟩

/-- Witness for C5 at a 200 response with stream off. -/
theorem request_success_single_attempt_witness :
    (Client.request ⟨0, 60⟩ okBackend "get" "http://u" false
      none).attempts.length = 1 ∧
    (Client.request ⟨0, 60⟩ okBackend "get" "http://u" false none).result =
      .ok (.jsonVal (.str "v")) := by
  have h := request_success_single_attempt ⟨0, 60⟩ okBackend "get" "http://u"
    false none 0 ⟨200, "ok", "OK", "http://u", .ok (.str "v")⟩ rfl rfl rfl
  exact ⟨h.1, h.2.2.2 rfl _ rfl⟩

/-- The response used in the C2 counterexample: a 301 redirect with a
nonempty body. -/
def redirectResponse : Response :=
  ⟨301, "moved", "Moved Permanently", "http://u", .error "not json"⟩

/-- C2 counterexample: check_response uses the transport's resp.ok, which is
false only for statuses in [400,600), so a 301 response (outside [200,299])
is returned unchanged instead of raising a generic ClientError. -/
theorem check_response_counterexample :
    check_response redirectResponse = .ok redirectResponse ∧
    is_ok redirectResponse.status_code = false := ⟨rfl, rfl⟩

/-- C2 amended: check_response raises Unauthorized on 403, NotFound on 404,
and a generic ClientError carrying the status code and response text (or the
transport library's own status-line message when the text is empty) for
every other status in [400,600) — the range on which the transport's
resp.ok is false; every response with a status outside [400,600), which
includes all of [200,299] but also informational and redirect statuses, is
returned unchanged. -/
theorem check_response_classification (r : Response) :
    (r.status_code = 403 →
      check_response r = .error (.unauthorized (check_message r))) ∧
    (r.status_code = 404 →
      check_response r = .error (.notFound (check_message r))) ∧
    (400 ≤ r.status_code → r.status_code < 600 → r.status_code ≠ 403 →
      r.status_code ≠ 404 →
      check_response r = .error (.clientError (check_message r))) ∧
    (r.status_code < 400 ∨ 600 ≤ r.status_code → check_response r = .ok r) := by
  refine ⟨?_, ?_, ?_, ?_⟩
  · intro h403
    have hok : r.ok = false := by
      rw [ok_eq_decide, decide_eq_false_iff_not]
      omega
    simp [check_response, hok, h403]
  · intro h404
    have hok : r.ok = false := by
      rw [ok_eq_decide, decide_eq_false_iff_not]
      omega
    simp [check_response, hok, h404]
  · intro hlo hhi hne3 hne4
    have hok : r.ok = false := by
      rw [ok_eq_decide, decide_eq_false_iff_not]
      omega
    simp [check_response, hok, hne3, hne4]
  · intro h
    have hok : r.ok = true := by
      rw [ok_eq_decide, decide_eq_true_eq]
      exact h
    simp [check_response, hok]

/-- Witness for the amended C2 at a 500 response with an empty body. -/
theorem check_response_classification_witness :
    check_response ⟨500, "", "Internal Server Error", "http://u",
        .error "x"⟩ =
      .error (.clientError (check_message ⟨500, "", "Internal Server Error",
        "http://u", .error "x"⟩)) :=
  (check_response_classification ⟨500, "", "Internal Server Error",
    "http://u", .error "x"⟩).2.2.1 (by norm_num) (by norm_num) (by norm_num)
    (by norm_num)

/-- C6: when the environment descriptor has no auth-server identifier
configured (sgconnect_env holds the MISSING sentinel), Client.headers never
produces an Authorization header and leaves the credential record untouched,
so no request issued through that environment carries one. -/
theorem headers_no_authorization (getTok : TokenMgr → String) (env : XOneEnv)
    (api : ApiConfig) (is_mime : Bool) (h : env.sgconnect_env = none) :
    (Client.headers getTok env api is_mime).1.lookup "Authorization" = none ∧
    (Client.headers getTok env api is_mime).2 = api := by
  unfold Client.headers
  rw [h]
  cases ho : api.origin with
  | none => cases is_mime <;> exact ⟨rfl, rfl⟩
  | some o => cases is_mime <;> exact ⟨rfl, rfl⟩

/-- A credential record holding only a scope, everything else absent. -/
def emptyApi : ApiConfig := ⟨none, none, "scope", "", "", none⟩

/-- An environment descriptor with sgconnect_env MISSING. -/
def noAuthEnv : XOneEnv :=
  ⟨emptyApi, emptyApi, emptyApi, "http://e", "prod", "v1", none, "", ""⟩

/-- Witness for C6. -/
theorem headers_no_authorization_witness :
    (Client.headers (fun _ => "tok") noAuthEnv emptyApi false).1.lookup
      "Authorization" = none ∧
    (Client.headers (fun _ => "tok") noAuthEnv emptyApi false).2 = emptyApi :=
  headers_no_authorization (fun _ => "tok") noAuthEnv emptyApi false rfl

lemma headers_preserves_token_mgr (getTok : TokenMgr → String) (env : XOneEnv)
    (api : ApiConfig) (mime : Bool) (m : TokenMgr)
    (h : api.token_mgr = some m) :
    (Client.headers getTok env api mime).2.token_mgr = some m := by
  unfold Client.headers
  cases hs : env.sgconnect_env with
  | none => cases ho : api.origin <;> simp [h]
  | some server => cases ho : api.origin <;> simp [h]

/-- C7: the token-manager slot of a credential record is written at most
once: once it holds a manager, no sequence of further Client.headers calls
(with any is_mime flags) replaces it, so at most one token-manager instance
exists per credential record. -/
theorem token_mgr_write_once (getTok : TokenMgr → String) (env : XOneEnv)
    (flags : List Bool) (api : ApiConfig) (m : TokenMgr)
    (h : api.token_mgr = some m) :
    (headersCalls getTok env api flags).token_mgr = some m := by
  induction flags generalizing api with
  | nil => simpa [headersCalls] using h
  | cons b bs ih =>
    unfold headersCalls
    rw [List.foldl_cons]
    exact ih _ (headers_preserves_token_mgr getTok env api b m h)

/-- A credential record whose token manager has already been created. -/
def apiWithMgr : ApiConfig :=
  ⟨none, none, "scope", "a", "b", some (.clientMode "a" "b" "s" "scope")⟩

/-- An environment descriptor that requires SGConnect authentication. -/
def authEnv : XOneEnv :=
  ⟨emptyApi, emptyApi, emptyApi, "http://e", "prod", "v1", some "dev", "", ""⟩

/-- Witness for C7: two further headers calls leave the manager in place. -/
theorem token_mgr_write_once_witness :
    (headersCalls (fun _ => "tok") authEnv apiWithMgr [false, true]).token_mgr =
      some (.clientMode "a" "b" "s" "scope") :=
  token_mgr_write_once (fun _ => "tok") authEnv [false, true] apiWithMgr
    (.clientMode "a" "b" "s" "scope") rfl

/-- C8: the base Client class's url method reads the attributes end_point
and tessa_env, which the XOneEnv type does not define (its fields are
endpoint and xone_env), so for every environment descriptor url fails with
an attribute-lookup error, and request on a base Client instance fails the
same way before any attempt is made. -/
theorem base_client_url_attribute_error
    (join : String → List String → String) (env : XOneEnv)
    (api_name : String) (last : List String) (cfg : Config)
    (backend : Nat → AttemptOutcome) (method : String) (stream : Bool)
    (mimeArg : Option Bool) :
    Client.url join env api_name last =
      .error (.attributeError "end_point") ∧
    (Client.requestBase cfg backend join env api_name last method stream
      mimeArg).result = .error (.attributeError "end_point") ∧
    (Client.requestBase cfg backend join env api_name last method stream
      mimeArg).attempts = [] := by
  have hu : Client.url join env api_name last =
      .error (.attributeError "end_point") := by
    unfold Client.url
    have hg : env.getattr "end_point" = none := rfl
    rw [hg]
  refine ⟨hu, ?_, ?_⟩ <;> simp [Client.requestBase, hu]

lemma requestLoop_mime_none (backend : Nat → AttemptOutcome) (stream : Bool)
    (method url : String) (fuel : Nat) :
    ∀ (count : Nat) (timeout : Int) (err : Option PyExc)
      (att : AttemptRecord),
    att ∈ (requestLoop backend stream method url fuel count timeout none
      err).attempts →
    att.is_mime = false := by
  induction fuel with
  | zero =>
    intro count timeout err att h
    simp [requestLoop] at h
  | succ f ih =>
    intro count timeout err att h
    cases hae : attemptError (backend count) with
    | some e =>
      rw [requestLoop_fail_step backend stream method url f count timeout
        none err e hae] at h
      rcases List.mem_cons.mp h with h1 | h2
      · rw [h1]; rfl
      · exact ih _ _ _ _ h2
    | none =>
      cases hbc : backend count with
      | raised e => rw [hbc] at hae; simp [attemptError] at hae
      | response r =>
        cases hcr : check_response r with
        | error e => rw [hbc] at hae; simp [attemptError, hcr] at hae
        | ok r' =>
          rw [requestLoop_success_step backend stream method url f count
            timeout none err r r' hbc hcr] at h
          simp at h
          rw [h]

lemma requestLoop_mime_at (backend : Nat → AttemptOutcome) (stream : Bool)
    (method url : String) (fuel count : Nat) (timeout : Int)
    (mime : Option Bool) (err : Option PyExc) (i : Nat) (att : AttemptRecord)
    (h : (requestLoop backend stream method url fuel count timeout mime
      err).attempts.get? i = some att) :
    att.is_mime = if i = 0 then mime.getD false else false := by
  cases fuel with
  | zero => simp [requestLoop] at h
  | succ f =>
    cases hae : attemptError (backend count) with
    | some e =>
      rw [requestLoop_fail_step backend stream method url f count timeout
        mime err e hae] at h
      cases i with
      | zero =>
        simp only [List.get?_cons_zero, Option.some.injEq] at h
        rw [← h]; rfl
      | succ j =>
        simp only [List.get?_cons_succ] at h
        have hm := List.get?_mem h
        simp [requestLoop_mime_none backend stream method url f _ _ _ _ hm]
    | none =>
      cases hbc : backend count with
      | raised e => rw [hbc] at hae; simp [attemptError] at hae
      | response r =>
        cases hcr : check_response r with
        | error e => rw [hbc] at hae; simp [attemptError, hcr] at hae
        | ok r' =>
          rw [requestLoop_success_step backend stream method url f count
            timeout mime err r r' hbc hcr] at h
          cases i with
          | zero =>
            simp only [List.get?_cons_zero, Option.some.injEq] at h
            rw [← h]; rfl
          | succ j => simp at h

lemma headers_contains_json (getTok : TokenMgr → String) (env : XOneEnv)
    (api : ApiConfig) :
    ("Content-Type", "application/json") ∈ (Client.headers getTok env api
      false).1 ∧
    ("Accept", "application/json") ∈ (Client.headers getTok env api
      false).1 := by
  unfold Client.headers
  cases hs : env.sgconnect_env <;> cases ho : api.origin <;> simp

/-- C9: when request is called with is_mime true in the params bag, the flag
is popped during the first loop iteration, so the first attempt builds its
headers with is_mime true while every retry attempt builds them with
is_mime false — and headers with is_mime false carry the JSON Content-Type
and Accept entries. -/
theorem request_is_mime_single_use (cfg : Config)
    (backend : Nat → AttemptOutcome) (method url : String) (stream : Bool)
    (getTok : TokenMgr → String) (env : XOneEnv) (api : ApiConfig) :
    (∀ att : AttemptRecord,
      (Client.request cfg backend method url stream (some true)).attempts.get?
        0 = some att → att.is_mime = true) ∧
    (∀ (i : Nat) (att : AttemptRecord), 1 ≤ i →
      (Client.request cfg backend method url stream (some true)).attempts.get?
        i = some att → att.is_mime = false) ∧
    ("Content-Type", "application/json") ∈
      (Client.headers getTok env api false).1 ∧
    ("Accept", "application/json") ∈
      (Client.headers getTok env api false).1 := by
  refine ⟨?_, ?_, (headers_contains_json getTok env api).1,
    (headers_contains_json getTok env api).2⟩
  · intro att h
    have := requestLoop_mime_at backend stream method url
      (cfg.max_retries + 1).toNat 0 cfg.timeout (some true) none 0 att h
    simpa using this
  · intro i att hi h
    have := requestLoop_mime_at backend stream method url
      (cfg.max_retries + 1).toNat 0 cfg.timeout (some true) none i att h
    rw [this, if_neg (by omega)]

/-- Witness for C9 at max_retries 1 with an always-failing backend: the
first attempt record carries is_mime true, the retry carries false. -/
theorem request_is_mime_single_use_witness :
    (AttemptRecord.mk 60 true).is_mime = true ∧
    (AttemptRecord.mk 65 false).is_mime = false ∧
    ("Content-Type", "application/json") ∈
      (Client.headers (fun _ => "tok") noAuthEnv emptyApi false).1 := by
  have h := request_is_mime_single_use ⟨1, 60⟩ alwaysFailBackend "get"
    "http://u" false (fun _ => "tok") noAuthEnv emptyApi
  exact ⟨h.1 ⟨60, true⟩ rfl, h.2.1 1 ⟨65, false⟩ (by norm_num) rfl, h.2.2.1⟩

lemma requestLoop_escape (backend : Nat → AttemptOutcome) (stream : Bool)
    (method url : String) (fuel : Nat) :
    ∀ (count : Nat) (timeout : Int) (mime : Option Bool)
      (err : Option PyExc) (e : PyExc),
    (requestLoop backend stream method url fuel count timeout mime
      err).result = .error e →
    e.isHTTPError = false ∧
    (e.isClientError = true ∨ e.isJsonDecodeError = true) := by
  induction fuel with
  | zero =>
    intro count timeout mime err e h
    cases err with
    | none =>
      simp only [requestLoop, Except.error.injEq] at h
      rw [← h]
      exact ⟨rfl, Or.inl rfl⟩
    | some e0 =>
      simp only [requestLoop, Except.error.injEq] at h
      rw [← h]
      exact ⟨rfl, Or.inl rfl⟩
  | succ f ih =>
    intro count timeout mime err e h
    cases hae : attemptError (backend count) with
    | some e' =>
      rw [requestLoop_fail_step backend stream method url f count timeout
        mime err e' hae] at h
      exact ih _ _ _ _ _ h
    | none =>
      cases hbc : backend count with
      | raised e' => rw [hbc] at hae; simp [attemptError] at hae
      | response r =>
        cases hcr : check_response r with
        | error e' => rw [hbc] at hae; simp [attemptError, hcr] at hae
        | ok r' =>
          rw [requestLoop_success_step backend stream method url f count
            timeout mime err r r' hbc hcr] at h
          cases hst : stream with
          | true => rw [hst] at h; simp at h
          | false =>
            rw [hst] at h
            cases hjb : r'.jsonBody with
            | ok j => simp [hjb] at h
            | error m =>
              simp only [hjb, Bool.false_eq_true, if_false,
                Except.error.injEq] at h
              rw [← h]
              exact ⟨rfl, Or.inr rfl⟩

/-- C10 amended: the per-attempt Unauthorized, NotFound and HttpClientError
exceptions (the whole HTTPError hierarchy) are always caught by the retry
loop and never escape; the exceptions that can escape to the caller are the
final ClientError (a RuntimeError) and, on the success path, a JSON-decode
error raised by parsing the body of an accepted response (resp.json sits in
the else branch, outside the try) — so a caller catching only HTTPError
never observes the failure, but ClientError is not the only escaping
exception. -/
theorem request_escaping_errors (cfg : Config)
    (backend : Nat → AttemptOutcome) (method url : String) (stream : Bool)
    (mimeArg : Option Bool) (e : PyExc)
    (h : (Client.request cfg backend method url stream mimeArg).result =
      .error e) :
    e.isHTTPError = false ∧
    (e.isClientError = true ∨ e.isJsonDecodeError = true) :=
  requestLoop_escape backend stream method url (cfg.max_retries + 1).toNat
    0 cfg.timeout mimeArg none e h

/-- Witness for the amended C10: the final error of an exhausted run is a
ClientError outside the HTTPError hierarchy. -/
theorem request_escaping_errors_witness :
    (PyExc.clientError (failMsg "get" "http://u"
      (PyExc.other "boom"))).isHTTPError = false ∧
    ((PyExc.clientError (failMsg "get" "http://u"
        (PyExc.other "boom"))).isClientError = true ∨
      (PyExc.clientError (failMsg "get" "http://u"
        (PyExc.other "boom"))).isJsonDecodeError = true) :=
  request_escaping_errors ⟨0, 60⟩ alwaysFailBackend "get" "http://u" false
    none (PyExc.clientError (failMsg "get" "http://u" (PyExc.other "boom")))
    rfl

/-- A backend that answers 200 with a body that is not valid JSON. -/
def badJsonBackend : Nat → AttemptOutcome :=
  fun _ => .response ⟨200, "not json", "OK", "http://u",
    .error "Expecting value"⟩

/-- C10 counterexample: on a 200 response whose body fails to parse, the
JSON-decode error escapes the loop to the caller, and it is not a
ClientError — so ClientError is not the only exception that can escape the
retry loop. -/
theorem request_json_escape_counterexample :
    (Client.request ⟨0, 60⟩ badJsonBackend "get" "http://u" false
      none).result = .error (.jsonDecodeError "Expecting value") ∧
    (PyExc.jsonDecodeError "Expecting value").isClientError = false :=
  ⟨rfl, rfl⟩

end XOne
